import Mathlib

/-!
Shallow embedding of the COE_Api data-access layer (database.py and the
app/modules services) together with proofs about its documented behavior.

Modelling conventions:
* The relational store is a `Store` (row lists plus SERIAL counters); the
  schema-level view used by bootstrap/health is a `Catalog` whose tables may
  be absent (`none`) or present with rows (`some rows`).
* SQL timestamps (`NOW()` / `CURRENT_TIMESTAMP`) are abstract `Nat` clock
  values passed in as a `now` parameter.
* Rows produced through `RealDictCursor` are mappings from column names to
  values; positional access into such a row is modelled by `rowGet` with a
  `PyKey` that distinguishes string keys from integer keys (an integer key
  never matches a column-name key, which is exactly psycopg2's
  `KeyError` on `row[0]`).
* A repository helper that catches every exception and returns `None` /
  `[]` is modelled as a total function returning `Option _` / `List _`;
  the enclosing transaction of a failed statement is rolled back, so the
  store is returned unchanged on those paths.
-/

set_option maxRecDepth 8192

namespace COE

/-- Row of the `domains` table (database.py, `_ensure_tables_exist`). -/
structure Domain where
  id : Nat
  name : String
  created_at : Nat
deriving DecidableEq, Repr

/-- Row of the `blogs` table.  `rejection_reason` is the column written by
the admin service's `reject_blog`; the moderation status is the string
column `status` defaulting to `'pending'`. -/
structure Blog where
  id : Nat
  title : String
  content : String
  author_name : String
  domain_id : Nat
  status : String
  rejection_reason : Option String
  created_at : Nat
  updated_at : Nat
deriving DecidableEq, Repr

/-- Row of the `events` table. -/
structure Event where
  id : Nat
  title : String
  description : String
  event_date : Nat
  event_type : String
  domain_id : Nat
  created_at : Nat
deriving DecidableEq, Repr

/-- Row of the `event_registrations` table, carrying the
`UNIQUE(event_id, email)` constraint. -/
structure Registration where
  id : Nat
  event_id : Nat
  user_name : String
  email : String
  created_at : Nat
deriving DecidableEq, Repr

/-- The relational store seen by the entity repositories: the four row
lists plus the SERIAL counters used when inserting domains and
registrations (the only inserts the verified operations perform). -/
structure Store where
  domains : List Domain
  blogs : List Blog
  events : List Event
  registrations : List Registration
  nextDomainId : Nat
  nextRegistrationId : Nat
deriving DecidableEq, Repr

/-- Result row of `SELECT b.*, d.name AS domain_name FROM blogs b JOIN
domains d ON b.domain_id = d.id`. -/
structure BlogRow where
  id : Nat
  title : String
  content : String
  author_name : String
  domain_id : Nat
  status : String
  rejection_reason : Option String
  created_at : Nat
  updated_at : Nat
  domain_name : String
deriving DecidableEq, Repr

/-- Attach a domain name to a blog row (the join projection). -/
def Blog.toRow (b : Blog) (dname : String) : BlogRow :=
  { id := b.id, title := b.title, content := b.content,
    author_name := b.author_name, domain_id := b.domain_id,
    status := b.status, rejection_reason := b.rejection_reason,
    created_at := b.created_at, updated_at := b.updated_at,
    domain_name := dname }

/-- The inner join of `blogs` with `domains` on `b.domain_id = d.id`.
Domain ids are a primary key, so each blog matches at most one domain;
blogs whose domain id matches no domain produce no row. -/
def joinedBlogs (s : Store) : List BlogRow :=
  s.blogs.filterMap fun b =>
    (s.domains.find? fun d => d.id == b.domain_id).map fun d => b.toRow d.name

/-- Python truthiness of an optional string parameter: the filters in
`get_blogs` / `list_blogs` are applied only when the argument is present
and non-empty (`if domain_name:` / `if search:`). -/
def optTruthy : Option String → Bool
  | some v => v != ""
  | none => false

/-- Case-insensitive substring test, the semantics of
`col ILIKE '%' + needle + '%'` for a needle without wildcard characters. -/
def ilikeContains (hay needle : String) : Bool :=
  2 ≤ ((hay.toLower).splitOn (needle.toLower)).length

/-- Insert one row into a list that is sorted by `created_at` descending. -/
def insertByCreatedDesc (x : BlogRow) : List BlogRow → List BlogRow
  | [] => [x]
  | y :: ys =>
      if x.created_at ≤ y.created_at then y :: insertByCreatedDesc x ys
      else x :: y :: ys

/-- Sort rows by `created_at` descending (`ORDER BY b.created_at DESC`). -/
def orderByCreatedDesc (l : List BlogRow) : List BlogRow :=
  l.foldr insertByCreatedDesc []

namespace BlogsDB

/-- Embedding of `BlogsDB.get_blogs` (database.py).  Joins blogs with
domains, optionally filters by exact domain name and by a
case-insensitive search over title OR content, and orders by
`created_at` descending.  Note: the statement applies NO filter on
`b.status`. -/
def get_blogs (s : Store) (domain_name search : Option String) : List BlogRow :=
  let rows := joinedBlogs s
  let rows :=
    if optTruthy domain_name then
      rows.filter fun r => r.domain_name == domain_name.getD ""
    else rows
  let rows :=
    if optTruthy search then
      rows.filter fun r =>
        ilikeContains r.title (search.getD "") ||
        ilikeContains r.content (search.getD "")
    else rows
  orderByCreatedDesc rows

/-- Embedding of `BlogsDB.get_blog_by_id` (database.py): the joined row
whose blog id matches, if any. -/
def get_blog_by_id (s : Store) (blog_id : Nat) : Option BlogRow :=
  (joinedBlogs s).find? fun r => r.id == blog_id

/-- Embedding of `BlogsDB.get_or_create_domain` (database.py; the module
service `get_or_create_domain` in app/modules/blogs/service.py runs the
same two statements): select the domain id by name, inserting a fresh
row (`RETURNING id`) when the name is absent. -/
def get_or_create_domain (now : Nat) (s : Store) (name : String) :
    Option Nat × Store :=
  match s.domains.find? (fun d => d.name == name) with
  | some d => (some d.id, s)
  | none =>
      let newDomain : Domain :=
        { id := s.nextDomainId, name := name, created_at := now }
      (some s.nextDomainId,
        { s with domains := s.domains ++ [newDomain],
                 nextDomainId := s.nextDomainId + 1 })

/-- Embedding of `BlogsDB.update_blog` (database.py): resolve the domain
(get-or-create), then run the conditional update
`UPDATE blogs SET ... WHERE id = %s AND status = 'pending'`; zero
affected rows is reported as `None`, otherwise the joined row is
re-selected. -/
def update_blog (now : Nat) (s : Store) (blog_id : Nat)
    (title content author_name domain_name : String) :
    Option BlogRow × Store :=
  match get_or_create_domain now s domain_name with
  | (none, s1) => (none, s1)
  | (some domain_id, s1) =>
      let affected :=
        (s1.blogs.filter fun b => b.id == blog_id && b.status == "pending").length
      let blogs' := s1.blogs.map fun b =>
        if b.id == blog_id && b.status == "pending" then
          { b with title := title, content := content,
                   author_name := author_name, domain_id := domain_id,
                   updated_at := now }
        else b
      let s2 := { s1 with blogs := blogs' }
      if affected == 0 then (none, s2) else (get_blog_by_id s2 blog_id, s2)

end BlogsDB

namespace BlogService

/-- Embedding of `list_blogs` (app/modules/blogs/service.py): the public
listing.  The statement has a FIXED filter `WHERE b.status = 'approved'`,
then the optional exact domain-name filter and the case-insensitive
search filter over the title only, ordered by `created_at` descending. -/
def list_blogs (s : Store) (domain_name search : Option String) : List BlogRow :=
  let rows := (joinedBlogs s).filter fun r => r.status == "approved"
  let rows :=
    if optTruthy domain_name then
      rows.filter fun r => r.domain_name == domain_name.getD ""
    else rows
  let rows :=
    if optTruthy search then
      rows.filter fun r => ilikeContains r.title (search.getD "")
    else rows
  orderByCreatedDesc rows

end BlogService

namespace AdminService

/-- Embedding of `approve_blog` (app/modules/admin/service.py).  The
update statement is `UPDATE blogs SET status='approved', updated_at=NOW()
WHERE id=%s RETURNING id` — it conditions on the id ONLY, with no filter
on the current status.  When `fetchone()` of the returned ids is empty
the service reports `None`; otherwise it re-selects the joined row. -/
def approve_blog (now : Nat) (s : Store) (blog_id : Nat) :
    Option BlogRow × Store :=
  let returnedIds := s.blogs.filter fun b => b.id == blog_id
  let blogs' := s.blogs.map fun b =>
    if b.id == blog_id then { b with status := "approved", updated_at := now }
    else b
  let s' := { s with blogs := blogs' }
  match returnedIds with
  | [] => (none, s')
  | _ :: _ => ((joinedBlogs s').find? fun r => r.id == blog_id, s')

/-- Embedding of `reject_blog` (app/modules/admin/service.py).  Like
`approve_blog`, the update `UPDATE blogs SET status='rejected',
rejection_reason=%s, updated_at=NOW() WHERE id=%s RETURNING id`
conditions only on the id. -/
def reject_blog (now : Nat) (s : Store) (blog_id : Nat)
    (rejection_reason : String) : Option BlogRow × Store :=
  let returnedIds := s.blogs.filter fun b => b.id == blog_id
  let blogs' := s.blogs.map fun b =>
    if b.id == blog_id then
      { b with status := "rejected", rejection_reason := some rejection_reason,
               updated_at := now }
    else b
  let s' := { s with blogs := blogs' }
  match returnedIds with
  | [] => (none, s')
  | _ :: _ => ((joinedBlogs s').find? fun r => r.id == blog_id, s')

end AdminService

/-- Outcome of the domain delete endpoint: `conflict` is the
`HTTPException(400, "... because N blog(s) are attached")` raised when the
reference count is positive, `notFound` the `HTTPException(404)` raised
when the delete returned no row, and `deleted` the returned deleted row. -/
inductive DeleteDomainOutcome where
  | conflict (count : Nat)
  | notFound
  | deleted (d : Domain)
deriving DecidableEq, Repr

namespace DomainService

/-- Embedding of `delete_domain` (app/modules/domains/service.py): count
blogs whose `domain_id` references the domain; a positive count aborts
with the conflict error before any mutation; otherwise run
`DELETE FROM domains WHERE id = %s RETURNING *` and report `notFound`
when no row came back. -/
def delete_domain (s : Store) (domain_id : Nat) :
    DeleteDomainOutcome × Store :=
  let count := (s.blogs.filter fun b => b.domain_id == domain_id).length
  if 0 < count then (.conflict count, s)
  else
    match s.domains.find? (fun d => d.id == domain_id) with
    | none => (.notFound, s)
    | some d =>
        (.deleted d,
          { s with domains := s.domains.filter fun x => !(x.id == domain_id) })

end DomainService

namespace EventRegistrationsDB

/-- Embedding of `EventRegistrationsDB.create_registration` (database.py).
The insert `INSERT INTO event_registrations (event_id, user_name, email)
VALUES (%s, %s, %s) RETURNING *` is subject to the foreign key on
`event_id` and to `UNIQUE(event_id, email)`; a violated constraint makes
the statement raise, the executor's scoped transaction rolls back, and
the repository's catch-all returns `None` — the same `None` every other
failure produces. -/
def create_registration (now : Nat) (s : Store) (event_id : Nat)
    (user_name email : String) : Option Registration × Store :=
  if s.events.all (fun e => e.id != event_id) then
    (none, s)
  else if s.registrations.any (fun r => r.event_id == event_id && r.email == email) then
    (none, s)
  else
    let r : Registration :=
      { id := s.nextRegistrationId, event_id := event_id,
        user_name := user_name, email := email, created_at := now }
    (some r,
      { s with registrations := s.registrations ++ [r],
               nextRegistrationId := s.nextRegistrationId + 1 })

end EventRegistrationsDB

/-- Schema-level view of the database used by bootstrap, health and
repair: each of the four tables is either absent (`none`) or present with
its rows.  `nextDomainId` is the SERIAL counter consumed when the default
domains are seeded. -/
structure Catalog where
  domainsTab : Option (List Domain)
  blogsTab : Option (List Blog)
  eventsTab : Option (List Event)
  registrationsTab : Option (List Registration)
  nextDomainId : Nat
deriving DecidableEq, Repr

/-- The fixed list of default domain names inserted by
`_ensure_tables_exist` when the `domains` table holds zero rows. -/
def defaultDomains : List String :=
  ["Computer Science", "Information Technology", "Electronics",
   "Mechanical Engineering", "Civil Engineering"]

/-- Rows produced by seeding the default domains, ids assigned by the
SERIAL counter in insertion order. -/
def seedDomains (start now : Nat) : List Domain :=
  defaultDomains.enum.map fun p =>
    { id := start + p.1, name := p.2, created_at := now }

namespace DatabaseManager

/-- Embedding of `DatabaseManager._ensure_tables_exist` (database.py):
each `CREATE TABLE IF NOT EXISTS` turns an absent table into an empty
one and leaves a present table's rows untouched; then, when
`SELECT COUNT(*) FROM domains` is zero, the five default domains are
inserted.  The whole block runs in one scoped transaction which, in this
sequential embedding, always commits. -/
def ensure_tables_exist (now : Nat) (c : Catalog) : Catalog :=
  let d := c.domainsTab.getD []
  let b := c.blogsTab.getD []
  let e := c.eventsTab.getD []
  let r := c.registrationsTab.getD []
  if d.length == 0 then
    { domainsTab := some (d ++ seedDomains c.nextDomainId now),
      blogsTab := some b, eventsTab := some e, registrationsTab := some r,
      nextDomainId := c.nextDomainId + defaultDomains.length }
  else
    { domainsTab := some d, blogsTab := some b, eventsTab := some e,
      registrationsTab := some r, nextDomainId := c.nextDomainId }

/-- Embedding of `DatabaseManager.repair_database` (database.py): re-run
the schema-ensure step and report `True`; the `False` branch is the
catch-all for a raising ensure step, which cannot raise in this
sequential embedding. -/
def repair_database (now : Nat) (c : Catalog) : Bool × Catalog :=
  (true, ensure_tables_exist now c)

end DatabaseManager

/-- Key of a Python mapping access: psycopg2's `RealDictCursor` produces
rows keyed by column NAME (strings); the code under scrutiny also
indexes such a row with the integer `0`. -/
inductive PyKey where
  | str (v : String)
  | int (v : Nat)
deriving DecidableEq, Repr

/-- Value stored in a row mapping. -/
inductive PyVal where
  | bool (v : Bool)
  | nat (v : Nat)
deriving DecidableEq, Repr

/-- Dictionary lookup on a row: `none` is Python's `KeyError`. -/
def rowGet (row : List (PyKey × PyVal)) (k : PyKey) : Option PyVal :=
  (row.find? fun p => p.1 == k).map fun p => p.2

/-- The single row returned by `SELECT EXISTS (...)` under
`RealDictCursor`: one entry keyed by the column name `"exists"`. -/
def existsQueryRow (present : Bool) : List (PyKey × PyVal) :=
  [(.str "exists", .bool present)]

/-- Report shape of a successful `check_database_health` run. -/
structure HealthReport where
  status : String
  required_tables : List String
  existing_tables : List String
  table_counts : List (String × Nat)
  active_connections : Nat
deriving DecidableEq, Repr

/-- Result of `check_database_health`: either the report dictionary or
the `except`-branch dictionary carrying `status="error"` and the
stringified exception. -/
inductive HealthResult where
  | report (r : HealthReport)
  | error (e : String)
deriving DecidableEq, Repr

/-- The `status` field of a health result. -/
def HealthResult.statusOf : HealthResult → String
  | .report r => r.status
  | .error _ => "error"

/-- Truthiness of a row value (used by `if cursor.fetchone()[0]:`). -/
def PyVal.truthy : PyVal → Bool
  | .bool v => v
  | .nat v => v != 0

/-- Presence of a required table in the catalog. -/
def Catalog.tablePresent (c : Catalog) : String → Bool
  | "domains" => c.domainsTab.isSome
  | "blogs" => c.blogsTab.isSome
  | "events" => c.eventsTab.isSome
  | "event_registrations" => c.registrationsTab.isSome
  | _ => false

/-- Row count of a table (`SELECT COUNT(*) FROM t`). -/
def Catalog.tableCount (c : Catalog) : String → Nat
  | "domains" => (c.domainsTab.getD []).length
  | "blogs" => (c.blogsTab.getD []).length
  | "events" => (c.eventsTab.getD []).length
  | "event_registrations" => (c.registrationsTab.getD []).length
  | _ => 0

namespace DatabaseManager

/-- The four table names `check_database_health` requires. -/
def requiredTables : List String :=
  ["domains", "blogs", "events", "event_registrations"]

/-- Embedding of the `try`-block body of
`DatabaseManager.check_database_health` (database.py).  For every
required table it runs the `SELECT EXISTS (...)` probe and then reads
`cursor.fetchone()[0]` — a positional index into a row that
`RealDictCursor` keys by column name, so the lookup raises `KeyError: 0`
(`throw "0"`, the `str()` of that exception).  The remainder of the body
(row counts and the healthy / missing_tables verdict) follows the
source. -/
def checkHealthBody (c : Catalog) : Except String HealthReport := do
  let mut existing : List String := []
  for t in requiredTables do
    match rowGet (existsQueryRow (c.tablePresent t)) (.int 0) with
    | none => throw "0"
    | some v => if v.truthy then existing := existing ++ [t]
  let mut counts : List (String × Nat) := []
  for t in existing do
    counts := counts ++ [(t, c.tableCount t)]
  pure { status :=
           if existing.length == requiredTables.length then "healthy"
           else "missing_tables",
         required_tables := requiredTables,
         existing_tables := existing,
         table_counts := counts,
         active_connections := 0 }

/-- Embedding of `DatabaseManager.check_database_health`: the report on
success, the `status="error"` dictionary when the body raises. -/
def check_database_health (c : Catalog) : HealthResult :=
  match checkHealthBody c with
  | .ok r => .report r
  | .error e => .error e

end DatabaseManager

/-- Outcome of a database action: a value, or a raised exception carrying
its message. -/
inductive DbResult (α : Type) where
  | ok (a : α)
  | err (e : String)
deriving DecidableEq, Repr

/-- Trace of connection-lifecycle effects performed by one scoped
acquisition: pool checkout, commit, rollback, pool give-back. -/
structure ConnEvents where
  acquired : Bool
  committed : Bool
  rolledBack : Bool
  released : Bool
deriving DecidableEq, Repr

/-- Trace for `get_db` (app/db/connection.py), which also closes the
cursor in its `finally` block. -/
structure CursorEvents where
  acquired : Bool
  committed : Bool
  rolledBack : Bool
  released : Bool
  cursorClosed : Bool
deriving DecidableEq, Repr

namespace DatabaseManager

/-- Embedding of the `get_connection` context manager (database.py).
Control flow of the source: `conn = pool.getconn()`; yield to the body;
`conn.commit()` on normal return; the `except` clause rolls back when
anything raised after checkout; the `finally` clause gives the
connection back to the pool whenever one was checked out.  `acquire`,
`body` and `commit` are the three steps that can raise. -/
def get_connection {α : Type} (acquire commitStep : DbResult Unit)
    (body : DbResult α) : DbResult α × ConnEvents :=
  match acquire with
  | .err e =>
      (.err e,
       { acquired := false, committed := false, rolledBack := false,
         released := false })
  | .ok _ =>
      match body with
      | .err e =>
          (.err e,
           { acquired := true, committed := false, rolledBack := true,
             released := true })
      | .ok a =>
          match commitStep with
          | .ok _ =>
              (.ok a,
               { acquired := true, committed := true, rolledBack := false,
                 released := true })
          | .err e =>
              (.err e,
               { acquired := true, committed := false, rolledBack := true,
                 released := true })

/-- Fetch mode passed by the four executor wrappers to `_execute`. -/
inductive FetchKind where
  | all
  | one
  | rowcount
deriving DecidableEq, Repr

/-- Embedding of `DatabaseManager._execute` (database.py): one statement
run inside `get_connection`; `run` is the cursor work (execute plus the
fetch dictated by `fetch`). -/
def dbExecute {α : Type} (acquire commitStep : DbResult Unit)
    (run : FetchKind → DbResult α) (fetch : FetchKind) :
    DbResult α × ConnEvents :=
  get_connection acquire commitStep (run fetch)

/-- Embedding of `execute_query` (SELECT, `fetch="all"`). -/
def execute_query {α : Type} (acquire commitStep : DbResult Unit)
    (run : FetchKind → DbResult α) : DbResult α × ConnEvents :=
  dbExecute acquire commitStep run .all

/-- Embedding of `execute_single` (SELECT, `fetch="one"`). -/
def execute_single {α : Type} (acquire commitStep : DbResult Unit)
    (run : FetchKind → DbResult α) : DbResult α × ConnEvents :=
  dbExecute acquire commitStep run .one

/-- Embedding of `execute_insert` (INSERT returning the created row,
`fetch="one"`). -/
def execute_insert {α : Type} (acquire commitStep : DbResult Unit)
    (run : FetchKind → DbResult α) : DbResult α × ConnEvents :=
  dbExecute acquire commitStep run .one

/-- Embedding of `execute_update` (UPDATE/DELETE, `fetch="rowcount"`). -/
def execute_update {α : Type} (acquire commitStep : DbResult Unit)
    (run : FetchKind → DbResult α) : DbResult α × ConnEvents :=
  dbExecute acquire commitStep run .rowcount

end DatabaseManager

namespace Connection

/-- Embedding of the `get_db` dependency (app/db/connection.py):
checkout, open a cursor, yield it, commit on normal return; rollback in
the `except` clause once a connection exists; the `finally` clause closes
the cursor when one was opened and gives the connection back whenever one
was checked out. -/
def get_db {α : Type} (acquire openCursor commitStep : DbResult Unit)
    (body : DbResult α) : DbResult α × CursorEvents :=
  match acquire with
  | .err e =>
      (.err e,
       { acquired := false, committed := false, rolledBack := false,
         released := false, cursorClosed := false })
  | .ok _ =>
      match openCursor with
      | .err e =>
          (.err e,
           { acquired := true, committed := false, rolledBack := true,
             released := true, cursorClosed := false })
      | .ok _ =>
          match body with
          | .err e =>
              (.err e,
               { acquired := true, committed := false, rolledBack := true,
                 released := true, cursorClosed := true })
          | .ok a =>
              match commitStep with
              | .ok _ =>
                  (.ok a,
                   { acquired := true, committed := true, rolledBack := false,
                     released := true, cursorClosed := true })
              | .err e =>
                  (.err e,
                   { acquired := true, committed := false, rolledBack := true,
                     released := true, cursorClosed := true })

end Connection

/-- Transaction discipline demanded of one executor call: once a
connection is checked out it is always given back; a successful checkout
is recorded; after a successful checkout, a successful body with a
successful commit step commits and does not roll back, while a raising
body rolls back, never commits, and propagates the error. -/
def TransactionDiscipline {α : Type} (res : DbResult α × ConnEvents)
    (acquire : DbResult Unit) (body : DbResult α)
    (commitStep : DbResult Unit) : Prop :=
  (res.2.acquired = true → res.2.released = true) ∧
  (acquire = .ok () → res.2.acquired = true) ∧
  (∀ a, acquire = .ok () → body = .ok a → commitStep = .ok () →
    res.2.committed = true ∧ res.2.rolledBack = false ∧ res.1 = .ok a) ∧
  (∀ e, acquire = .ok () → body = .err e →
    res.2.rolledBack = true ∧ res.2.committed = false ∧ res.1 = .err e)

namespace AdminDB

/-- Embedding of `AdminDB.get_dashboard_stats` (database.py).  The four
count queries run in order inside one `try`; each returns an optional
row (`None` is mapped to count 0) or raises; any raise is caught by the
catch-all, which returns the EMPTY dictionary — the function itself never
raises. -/
def get_dashboard_stats (qBlogs qEvents qDomains qRegs : DbResult (Option Nat)) :
    DbResult (List (String × Nat)) :=
  match qBlogs with
  | .err _ => .ok []
  | .ok b =>
      match qEvents with
      | .err _ => .ok []
      | .ok e =>
          match qDomains with
          | .err _ => .ok []
          | .ok d =>
              match qRegs with
              | .err _ => .ok []
              | .ok r =>
                  .ok [("total_blogs", b.getD 0), ("total_events", e.getD 0),
                       ("total_domains", d.getD 0),
                       ("total_registrations", r.getD 0)]

end AdminDB

namespace Main

/-- Embedding of the `/admin/health` endpoint (main.py): it calls
`AdminDB.get_dashboard_stats()` inside a `try`, sets
`db_status="healthy"` unless that call raises, and reports
`status="healthy"` exactly when `db_status=="healthy"` ("degraded"
otherwise).  The pair is `(status, database)`. -/
def health_check (qBlogs qEvents qDomains qRegs : DbResult (Option Nat)) :
    String × String :=
  match AdminDB.get_dashboard_stats qBlogs qEvents qDomains qRegs with
  | .ok _ => ("healthy", "healthy")
  | .err _ => ("degraded", "unhealthy")

end Main

/-- Discipline demanded of the `get_db` dependency: once a connection is
checked out it is given back and (when a cursor was opened) the cursor is
closed; with an open cursor, a successful body and commit step commit
without rollback; a raising body rolls back, never commits, and
propagates the error. -/
def CursorDiscipline {α : Type} (res : DbResult α × CursorEvents)
    (acquire openCursor : DbResult Unit) (body : DbResult α)
    (commitStep : DbResult Unit) : Prop :=
  (res.2.acquired = true → res.2.released = true) ∧
  (acquire = .ok () → res.2.acquired = true) ∧
  (res.2.acquired = true → openCursor = .ok () → res.2.cursorClosed = true) ∧
  (∀ a, acquire = .ok () → openCursor = .ok () → body = .ok a →
    commitStep = .ok () →
    res.2.committed = true ∧ res.2.rolledBack = false ∧ res.1 = .ok a) ∧
  (∀ e, acquire = .ok () → openCursor = .ok () → body = .err e →
    res.2.rolledBack = true ∧ res.2.committed = false ∧ res.1 = .err e)

/-! Concrete fixtures used by witnesses and counterexamples. -/

/-- A sample domain row. -/
def sampleDomain : Domain := { id := 1, name := "X", created_at := 0 }

/-- A sample blog still in the `pending` state. -/
def samplePendingBlog : Blog :=
  { id := 1, title := "T", content := "C", author_name := "A",
    domain_id := 1, status := "pending", rejection_reason := none,
    created_at := 0, updated_at := 0 }

/-- Store holding one pending blog in domain `X`. -/
def samplePendingStore : Store :=
  { domains := [sampleDomain], blogs := [samplePendingBlog], events := [],
    registrations := [], nextDomainId := 2, nextRegistrationId := 1 }

/-- Store holding one blog already `rejected` by a first moderation call. -/
def sampleRejectedStore : Store :=
  { samplePendingStore with
      blogs := [{ samplePendingBlog with status := "rejected" }] }

/-- Store holding one blog already `approved` by a first moderation call. -/
def sampleApprovedStore : Store :=
  { samplePendingStore with
      blogs := [{ samplePendingBlog with status := "approved" }] }

/-- The joined row of the approved sample blog. -/
def sampleApprovedRow : BlogRow :=
  ({ samplePendingBlog with status := "approved" } : Blog).toRow "X"

/-- Store holding one event (id 1) and no registrations. -/
def sampleEventStore : Store :=
  { samplePendingStore with
      events := [{ id := 1, title := "E", description := "", event_date := 0,
                   event_type := "t", domain_id := 1, created_at := 0 }] }

/-- The event store after one successful registration of `(1, "e")`. -/
def sampleRegisteredStore : Store :=
  (EventRegistrationsDB.create_registration 0 sampleEventStore 1 "U" "e").2

/-- Store holding the sample domain and no blogs at all. -/
def sampleNoBlogStore : Store :=
  { samplePendingStore with blogs := [] }

/-- The empty catalog: no tables yet. -/
def emptyCatalog : Catalog :=
  { domainsTab := none, blogsTab := none, eventsTab := none,
    registrationsTab := none, nextDomainId := 1 }

/-- A freshly bootstrapped catalog: all four tables created and the
five default domains seeded. -/
def freshCatalog : Catalog := DatabaseManager.ensure_tables_exist 0 emptyCatalog

/-! Helper lemmas shared by the claim proofs. -/

theorem mem_insertByCreatedDesc {x y : BlogRow} {l : List BlogRow} :
    y ∈ insertByCreatedDesc x l ↔ y = x ∨ y ∈ l := by
  induction l with
  | nil => simp [insertByCreatedDesc]
  | cons z zs ih =>
      simp only [insertByCreatedDesc]
      split
      · simp only [List.mem_cons, ih]
        tauto
      · simp [List.mem_cons]

theorem mem_orderByCreatedDesc {y : BlogRow} {l : List BlogRow} :
    y ∈ orderByCreatedDesc l ↔ y ∈ l := by
  induction l with
  | nil => simp [orderByCreatedDesc]
  | cons z zs ih =>
      simp only [orderByCreatedDesc, List.foldr] at *
      rw [mem_insertByCreatedDesc, ih]
      simp

theorem mem_of_mem_optional_filter {p : BlogRow → Bool} {c : Prop} [Decidable c]
    {l : List BlogRow} {x : BlogRow}
    (h : x ∈ if c then l.filter p else l) : x ∈ l := by
  split at h
  · exact (List.mem_filter.mp h).1
  · exact h

theorem map_eq_self_of_fix {α : Type} {l : List α} {f : α → α}
    (h : ∀ x ∈ l, f x = x) : l.map f = l := by
  calc l.map f = l.map id := List.map_congr_left h
  _ = l := List.map_id l

theorem find?_append_of_none {α : Type} {p : α → Bool} {l₁ l₂ : List α}
    (h : l₁.find? p = none) : (l₁ ++ l₂).find? p = l₂.find? p := by
  induction l₁ with
  | nil => simp
  | cons a t ih =>
      rw [List.find?_eq_none] at h
      have ha : p a = false := by
        have := h a (by simp)
        simpa using this
      have ht : t.find? p = none := by
        rw [List.find?_eq_none]
        intro x hx
        exact h x (by simp [hx])
      simpa [List.find?_cons, ha] using ih ht

theorem get_or_create_domain_found (now : Nat) (s : Store) (name : String)
    (d : Domain) (h : s.domains.find? (fun x => x.name == name) = some d) :
    BlogsDB.get_or_create_domain now s name = (some d.id, s) := by
  unfold BlogsDB.get_or_create_domain
  rw [h]

theorem get_or_create_domain_absent (now : Nat) (s : Store) (name : String)
    (h : s.domains.find? (fun x => x.name == name) = none) :
    BlogsDB.get_or_create_domain now s name =
      (some s.nextDomainId,
        { s with
            domains :=
              s.domains ++ [{ id := s.nextDomainId, name := name, created_at := now }],
            nextDomainId := s.nextDomainId + 1 }) := by
  unfold BlogsDB.get_or_create_domain
  rw [h]

theorem blogs_of_get_or_create_domain (now : Nat) (s : Store) (name : String) :
    (BlogsDB.get_or_create_domain now s name).2.blogs = s.blogs ∧
    ∃ i, (BlogsDB.get_or_create_domain now s name).1 = some i := by
  unfold BlogsDB.get_or_create_domain
  cases s.domains.find? (fun d => d.name == name) <;> simp


/-! Claim theorems. -/

/-- C1 (counterexample): `BlogsDB.get_blogs` applies no status filter — on
a store whose only blog is `pending`, the unfiltered public listing
returns that blog, so the listing operation as claimed (get_blogs AND
list_blogs returning only approved blogs) is refuted. -/
theorem get_blogs_returns_pending_counterexample :
    (BlogsDB.get_blogs samplePendingStore none none).map
      (fun r => r.status) = ["pending"] := by decide

/-- C1 (amended): the module-service `list_blogs` — the operation whose
statement carries the fixed `WHERE b.status = 'approved'` — returns only
blogs whose status is `approved`, for every store state and every pair of
optional filters; `BlogsDB.get_blogs` carries no such filter. -/
theorem list_blogs_only_approved (s : Store) (domain_name search : Option String)
    (r : BlogRow) (hr : r ∈ BlogService.list_blogs s domain_name search) :
    r.status = "approved" := by
  simp only [BlogService.list_blogs] at hr
  rw [mem_orderByCreatedDesc] at hr
  have h1 := mem_of_mem_optional_filter (mem_of_mem_optional_filter hr)
  have h2 := (List.mem_filter.mp h1).2
  simpa using h2

/-- C1 witness: a concrete approved blog is listed and the theorem
applies to it. -/
theorem list_blogs_only_approved_witness :
    sampleApprovedRow ∈ BlogService.list_blogs sampleApprovedStore none none ∧
    sampleApprovedRow.status = "approved" :=
  ⟨by decide,
   list_blogs_only_approved sampleApprovedStore none none sampleApprovedRow
     (by decide)⟩

/-- C2 (code bug, failing input): on a store whose only blog (id 1) is
already `rejected`, `approve_blog` does NOT report the not-found/zero-rows
outcome: it returns a row and overwrites the terminal status with
`approved`; symmetrically `reject_blog` overwrites an `approved` blog.
The update statements condition on the id only, so the admin route's
"Blog not found or already processed" branch is unreachable for
already-processed blogs. -/
theorem approve_reject_overwrite_terminal_status :
    (AdminService.approve_blog 5 sampleRejectedStore 1).1 ≠ none ∧
    ((AdminService.approve_blog 5 sampleRejectedStore 1).2.blogs.map
      fun b => b.status) = ["approved"] ∧
    (AdminService.reject_blog 5 sampleApprovedStore 1 "r").1 ≠ none ∧
    ((AdminService.reject_blog 5 sampleApprovedStore 1 "r").2.blogs.map
      fun b => b.status) = ["rejected"] := by decide

/-- C3 (counterexample): the second registration of the pair `(1, "e")`
produces EXACTLY the same outcome — `None` and an untouched store — as an
insert that fails for an unrelated reason (event 99 does not exist), so
no distinguishable duplicate-registration condition surfaces; the
repository's catch-all collapses every failure into the one generic
`None` that the route turns into a uniform 400. -/
theorem duplicate_registration_generic_counterexample :
    EventRegistrationsDB.create_registration 1 sampleRegisteredStore 1 "U" "e" =
      EventRegistrationsDB.create_registration 1 sampleRegisteredStore 99 "V" "f" ∧
    (EventRegistrationsDB.create_registration 1 sampleRegisteredStore 1 "U" "e").1 =
      none := by decide

/-- C3 (amended): registering the same `(event_id, email)` twice leaves
exactly one stored registration row — the unique constraint makes the
second insert fail and roll back — but the second attempt is reported as
the generic failure outcome (`None`), not as a distinguishable
duplicate-registration condition. -/
theorem create_registration_duplicate_once (now now2 : Nat) (s : Store)
    (event_id : Nat) (user_name email u2 : String)
    (hev : ∃ e ∈ s.events, e.id = event_id)
    (hfresh : ∀ r ∈ s.registrations, ¬(r.event_id = event_id ∧ r.email = email)) :
    (EventRegistrationsDB.create_registration now s event_id user_name email).1 ≠ none ∧
    EventRegistrationsDB.create_registration now2
        (EventRegistrationsDB.create_registration now s event_id user_name email).2
        event_id u2 email =
      (none, (EventRegistrationsDB.create_registration now s event_id user_name email).2) ∧
    ((EventRegistrationsDB.create_registration now s event_id user_name email).2.registrations.filter
        fun r => r.event_id == event_id && r.email == email).length = 1 := by
  obtain ⟨e, he, heid⟩ := hev
  have hAll : (s.events.all fun x => x.id != event_id) = false := by
    rw [Bool.eq_false_iff]
    intro hc
    rw [List.all_eq_true] at hc
    have := hc e he
    simp [heid] at this
  have hAny : (s.registrations.any fun r =>
      r.event_id == event_id && r.email == email) = false := by
    rw [Bool.eq_false_iff]
    intro hc
    rw [List.any_eq_true] at hc
    obtain ⟨r, hrmem, hrp⟩ := hc
    simp only [Bool.and_eq_true, beq_iff_eq] at hrp
    exact hfresh r hrmem hrp
  have hNil : (s.registrations.filter fun r =>
      r.event_id == event_id && r.email == email) = [] := by
    rw [List.filter_eq_nil_iff]
    intro r hrmem hrp
    simp only [Bool.and_eq_true, beq_iff_eq] at hrp
    exact hfresh r hrmem hrp
  simp only [EventRegistrationsDB.create_registration, hAll, hAny,
    Bool.false_eq_true, if_false, List.any_append, Bool.or_eq_true,
    List.filter_append]
  simp [hAll, hAny, hNil]

/-- C3 witness: the amended behavior at the concrete event store. -/
theorem create_registration_duplicate_once_witness :
    (∃ e ∈ sampleEventStore.events, e.id = 1) ∧
    (∀ r ∈ sampleEventStore.registrations,
      ¬(r.event_id = 1 ∧ r.email = "e")) ∧
    ((EventRegistrationsDB.create_registration 0 sampleEventStore 1 "U" "e").2.registrations.filter
        fun r => r.event_id == 1 && r.email == "e").length = 1 :=
  ⟨by decide, by decide,
   (create_registration_duplicate_once 0 1 sampleEventStore 1 "U" "e" "V"
     (by decide) (by decide)).2.2⟩

/-- C4 (confirmed): `BlogsDB.update_blog` guards the mutation with
`WHERE id = %s AND status = 'pending'` in the single update statement;
when every blog carrying the id is not `pending` the statement affects
zero rows, the function reports the not-applicable outcome `None`, and
the stored blog rows are left exactly as they were. -/
theorem update_blog_not_pending_noop (now : Nat) (s : Store) (blog_id : Nat)
    (title content author_name domain_name : String)
    (h : ∀ b ∈ s.blogs, b.id = blog_id → b.status ≠ "pending") :
    (BlogsDB.update_blog now s blog_id title content author_name domain_name).1 = none ∧
    (BlogsDB.update_blog now s blog_id title content author_name domain_name).2.blogs = s.blogs := by
  obtain ⟨hblogs, i, hi⟩ := blogs_of_get_or_create_domain now s domain_name
  rcases hm : BlogsDB.get_or_create_domain now s domain_name with ⟨r, s1⟩
  rw [hm] at hblogs hi
  simp only at hblogs hi
  subst hi
  have hpred : ∀ b ∈ s.blogs, (b.id == blog_id && b.status == "pending") = false := by
    intro b hb
    by_cases hid : b.id = blog_id
    · have hst := h b hb hid
      simp [hid, hst]
    · simp [hid]
  have hNil : (s.blogs.filter fun b =>
      b.id == blog_id && b.status == "pending") = [] :=
    List.filter_eq_nil_iff.mpr (by intro b hb; simp [hpred b hb])
  have hMap : (s.blogs.map fun b =>
      if b.id == blog_id && b.status == "pending" then
        { b with title := title, content := content,
                 author_name := author_name, domain_id := i,
                 updated_at := now }
      else b) = s.blogs :=
    map_eq_self_of_fix (by intro b hb; simp [hpred b hb])
  unfold BlogsDB.update_blog
  rw [hm]
  simp only [hblogs, hNil, List.length_nil, hMap]
  simp

/-- C4 witness: the concrete rejected-blog store. -/
theorem update_blog_not_pending_noop_witness :
    (∀ b ∈ sampleRejectedStore.blogs, b.id = 1 → b.status ≠ "pending") ∧
    (BlogsDB.update_blog 9 sampleRejectedStore 1 "nt" "nc" "na" "X").1 = none ∧
    (BlogsDB.update_blog 9 sampleRejectedStore 1 "nt" "nc" "na" "X").2.blogs =
      sampleRejectedStore.blogs :=
  ⟨by decide,
   (update_blog_not_pending_noop 9 sampleRejectedStore 1 "nt" "nc" "na" "X"
     (by decide)).1,
   (update_blog_not_pending_noop 9 sampleRejectedStore 1 "nt" "nc" "na" "X"
     (by decide)).2⟩

/-- C5 (code bug): `check_database_health` reads the table-existence
probe with `cursor.fetchone()[0]`, a positional index into a row that the
pool's `RealDictCursor` keys by column name — the lookup raises
`KeyError: 0` on the very first required table, the catch-all converts it
to the `status="error"` dictionary, and so the function reports `error`
for EVERY catalog, including the freshly bootstrapped one on which the
claim expects `healthy`; the healthy / missing_tables verdict computed
later in the body is unreachable. -/
theorem check_database_health_always_error (c : Catalog) :
    DatabaseManager.check_database_health c = HealthResult.error "0" ∧
    (DatabaseManager.check_database_health freshCatalog).statusOf = "error" :=
  ⟨rfl, rfl⟩

/-- C6 (confirmed): every executor wrapper (`execute_query`,
`execute_single`, `execute_insert`, `execute_update`) and the `get_db`
dependency run their statement inside the scoped connection acquisition:
once a connection is checked out it is given back on every exit path,
a successful statement (with a successful commit step) commits, and a
raising statement rolls back and propagates the error without
committing. -/
theorem executor_transaction_discipline {α : Type}
    (acquire commitStep openCursor : DbResult Unit)
    (run : DatabaseManager.FetchKind → DbResult α) (body : DbResult α) :
    TransactionDiscipline (DatabaseManager.execute_query acquire commitStep run)
      acquire (run .all) commitStep ∧
    TransactionDiscipline (DatabaseManager.execute_single acquire commitStep run)
      acquire (run .one) commitStep ∧
    TransactionDiscipline (DatabaseManager.execute_insert acquire commitStep run)
      acquire (run .one) commitStep ∧
    TransactionDiscipline (DatabaseManager.execute_update acquire commitStep run)
      acquire (run .rowcount) commitStep ∧
    CursorDiscipline (Connection.get_db acquire openCursor commitStep body)
      acquire openCursor body commitStep := by
  have hconn : ∀ (fetch : DatabaseManager.FetchKind),
      TransactionDiscipline
        (DatabaseManager.dbExecute acquire commitStep run fetch)
        acquire (run fetch) commitStep := by
    intro fetch
    unfold TransactionDiscipline DatabaseManager.dbExecute
      DatabaseManager.get_connection
    rcases acquire with _ | ea
    · rcases h : run fetch with a | e <;>
        rcases commitStep with _ | ec <;>
          simp [h]
    · rcases h : run fetch with a | e <;> simp [h]
  refine ⟨hconn .all, hconn .one, hconn .one, hconn .rowcount, ?_⟩
  unfold CursorDiscipline Connection.get_db
  rcases acquire with _ | ea
  · rcases openCursor with _ | eo
    · rcases body with a | e <;> rcases commitStep with _ | ec <;> simp
    · rcases body with a | e <;> simp
  · simp

/-- C6 witness: concrete runs of the executors and of `get_db`. -/
theorem executor_transaction_discipline_witness :
    ((DatabaseManager.execute_query (DbResult.ok ()) (DbResult.ok ())
        (fun _ => DbResult.ok (7 : Nat))).2.released = true) ∧
    ((DatabaseManager.execute_update (DbResult.ok ()) (DbResult.ok ())
        (fun _ => (DbResult.err "boom" : DbResult Nat))).2.rolledBack = true) ∧
    ((Connection.get_db (DbResult.ok ()) (DbResult.ok ()) (DbResult.ok ())
        (DbResult.ok (3 : Nat))).2.committed = true) :=
  ⟨(executor_transaction_discipline (DbResult.ok ()) (DbResult.ok ())
      (DbResult.ok ()) (fun _ => DbResult.ok (7 : Nat))
      (DbResult.ok 7)).1.1 (by decide),
   ((executor_transaction_discipline (DbResult.ok ()) (DbResult.ok ())
      (DbResult.ok ()) (fun _ => (DbResult.err "boom" : DbResult Nat))
      (DbResult.err "boom")).2.2.2.1.2.2.2 "boom" rfl rfl).1,
   ((executor_transaction_discipline (DbResult.ok ()) (DbResult.ok ())
      (DbResult.ok ()) (fun _ => DbResult.ok (0 : Nat))
      (DbResult.ok (3 : Nat))).2.2.2.2.2.2.2.1 3 rfl rfl rfl rfl).1⟩

/-- C7 (confirmed): `delete_domain` fails with the referential-conflict
error carrying the exact count of referencing blogs whenever at least one
blog references the domain, and mutates nothing in that case; with zero
references it deletes and returns the stored row; with zero references
and no such domain it reports not-found. -/
theorem delete_domain_outcomes (s : Store) (domain_id : Nat) :
    (0 < (s.blogs.filter fun b => b.domain_id == domain_id).length →
      DomainService.delete_domain s domain_id =
        (.conflict (s.blogs.filter fun b => b.domain_id == domain_id).length, s)) ∧
    ((∀ b ∈ s.blogs, b.domain_id ≠ domain_id) →
      (∀ d ∈ s.domains, d.id ≠ domain_id) →
      DomainService.delete_domain s domain_id = (.notFound, s)) ∧
    (∀ d, (∀ b ∈ s.blogs, b.domain_id ≠ domain_id) →
      s.domains.find? (fun x => x.id == domain_id) = some d →
      (DomainService.delete_domain s domain_id).1 = .deleted d ∧
      ∀ x, (x ∈ (DomainService.delete_domain s domain_id).2.domains ↔
        x ∈ s.domains ∧ x.id ≠ domain_id)) := by
  refine ⟨?_, ?_, ?_⟩
  · intro hpos
    unfold DomainService.delete_domain
    simp [hpos]
  · intro hblogs hdoms
    have hnil : (s.blogs.filter fun b => b.domain_id == domain_id) = [] := by
      rw [List.filter_eq_nil_iff]
      intro b hb
      simp [hblogs b hb]
    have hfind : s.domains.find? (fun x => x.id == domain_id) = none := by
      rw [List.find?_eq_none]
      intro d hd
      simp [hdoms d hd]
    unfold DomainService.delete_domain
    simp [hnil, hfind]
  · intro d hblogs hfind
    have hnil : (s.blogs.filter fun b => b.domain_id == domain_id) = [] := by
      rw [List.filter_eq_nil_iff]
      intro b hb
      simp [hblogs b hb]
    have hres : DomainService.delete_domain s domain_id =
        (.deleted d,
          { s with domains := s.domains.filter fun x => !(x.id == domain_id) }) := by
      unfold DomainService.delete_domain
      simp [hnil, hfind]
    rw [hres]
    exact ⟨rfl, fun x => by simp [List.mem_filter]⟩

/-- C7 witness: the conflict case counts the one referencing blog; the
delete case removes the unreferenced domain. -/
theorem delete_domain_outcomes_witness :
    (0 < (samplePendingStore.blogs.filter fun b => b.domain_id == 1).length ∧
      DomainService.delete_domain samplePendingStore 1 =
        (.conflict 1, samplePendingStore)) ∧
    ((DomainService.delete_domain sampleNoBlogStore 1).1 =
      .deleted sampleDomain) :=
  ⟨⟨by decide,
    by
      have h := (delete_domain_outcomes samplePendingStore 1).1 (by decide)
      simpa using h⟩,
   ((delete_domain_outcomes sampleNoBlogStore 1).2.2 sampleDomain
     (by decide) (by decide)).1⟩

/-- C8 (confirmed): under the store invariant that domain names are
unique (the schema's UNIQUE constraint), two sequential calls of
`get_or_create_domain` with the same name return the same id, the second
call leaves the store untouched, and exactly one domain row with that
name exists afterwards. -/
theorem get_or_create_domain_twice (now now2 : Nat) (s : Store) (name : String)
    (huniq : (s.domains.filter fun d => d.name == name).length ≤ 1) :
    (BlogsDB.get_or_create_domain now2
        (BlogsDB.get_or_create_domain now s name).2 name).1 =
      (BlogsDB.get_or_create_domain now s name).1 ∧
    (BlogsDB.get_or_create_domain now s name).1 ≠ none ∧
    (BlogsDB.get_or_create_domain now2
        (BlogsDB.get_or_create_domain now s name).2 name).2 =
      (BlogsDB.get_or_create_domain now s name).2 ∧
    ((BlogsDB.get_or_create_domain now2
        (BlogsDB.get_or_create_domain now s name).2 name).2.domains.filter
      fun d => d.name == name).length = 1 := by
  rcases hfind : s.domains.find? (fun d => d.name == name) with _ | d
  · have hnil : (s.domains.filter fun d => d.name == name) = [] := by
      rw [List.filter_eq_nil_iff]
      rw [List.find?_eq_none] at hfind
      exact hfind
    have hfind2 : ((s.domains ++
        [({ id := s.nextDomainId, name := name, created_at := now } : Domain)]).find?
          fun d => d.name == name) =
        some { id := s.nextDomainId, name := name, created_at := now } := by
      rw [find?_append_of_none hfind]
      simp [List.find?_cons]
    have hres1 := get_or_create_domain_absent now s name hfind
    have hres2 := get_or_create_domain_found now2
      { s with
          domains :=
            s.domains ++ [{ id := s.nextDomainId, name := name, created_at := now }],
          nextDomainId := s.nextDomainId + 1 }
      name { id := s.nextDomainId, name := name, created_at := now } hfind2
    simp [hres1, hres2, List.filter_append, hnil]
  · have hpd := List.find?_some hfind
    have hmemd := List.mem_of_find?_eq_some hfind
    have hmem : d ∈ s.domains.filter fun x => x.name == name :=
      List.mem_filter.mpr ⟨hmemd, by simpa using hpd⟩
    have hone : (s.domains.filter fun x => x.name == name).length = 1 := by
      refine Nat.le_antisymm huniq ?_
      have hne : (s.domains.filter fun x => x.name == name) ≠ [] := by
        intro hc
        rw [hc] at hmem
        exact List.not_mem_nil d hmem
      exact Nat.succ_le_of_lt (List.length_pos.mpr hne)
    have hres1 : BlogsDB.get_or_create_domain now s name = (some d.id, s) := by
      unfold BlogsDB.get_or_create_domain
      rw [hfind]
    have hres2 : BlogsDB.get_or_create_domain now2 s name = (some d.id, s) := by
      unfold BlogsDB.get_or_create_domain
      rw [hfind]
    simp [hres1, hres2, hone]

/-- C8 witness: creating then re-requesting the fresh name `"Fresh"`. -/
theorem get_or_create_domain_twice_witness :
    ((samplePendingStore.domains.filter fun d => d.name == "Fresh").length ≤ 1) ∧
    (BlogsDB.get_or_create_domain 1
        (BlogsDB.get_or_create_domain 0 samplePendingStore "Fresh").2 "Fresh").1 =
      (BlogsDB.get_or_create_domain 0 samplePendingStore "Fresh").1 ∧
    ((BlogsDB.get_or_create_domain 1
        (BlogsDB.get_or_create_domain 0 samplePendingStore "Fresh").2 "Fresh").2.domains.filter
      fun d => d.name == "Fresh").length = 1 :=
  ⟨by decide,
   (get_or_create_domain_twice 0 1 samplePendingStore "Fresh" (by decide)).1,
   (get_or_create_domain_twice 0 1 samplePendingStore "Fresh" (by decide)).2.2.2⟩

/-- C9 (confirmed): the schema-ensure step preserves every existing row
of every table, seeds the default domains exactly when the domains table
holds zero rows, is idempotent across re-runs, and `repair_database`
re-runs it reporting success — it creates what is missing and never
drops or alters existing data. -/
theorem ensure_tables_idempotent_nondestructive (now now2 : Nat) (c : Catalog) :
    (∀ l, c.blogsTab = some l →
      (DatabaseManager.ensure_tables_exist now c).blogsTab = some l) ∧
    (∀ l, c.eventsTab = some l →
      (DatabaseManager.ensure_tables_exist now c).eventsTab = some l) ∧
    (∀ l, c.registrationsTab = some l →
      (DatabaseManager.ensure_tables_exist now c).registrationsTab = some l) ∧
    (∀ l, c.domainsTab = some l → l ≠ [] →
      (DatabaseManager.ensure_tables_exist now c).domainsTab = some l) ∧
    ((c.domainsTab.getD []).length = 0 →
      (DatabaseManager.ensure_tables_exist now c).domainsTab =
        some ((c.domainsTab.getD []) ++ seedDomains c.nextDomainId now)) ∧
    DatabaseManager.ensure_tables_exist now2
        (DatabaseManager.ensure_tables_exist now c) =
      DatabaseManager.ensure_tables_exist now c ∧
    DatabaseManager.repair_database now c =
      (true, DatabaseManager.ensure_tables_exist now c) := by
  by_cases h0 : (c.domainsTab.getD []).length = 0
  · have hEq : DatabaseManager.ensure_tables_exist now c =
        { domainsTab := some ((c.domainsTab.getD []) ++
            seedDomains c.nextDomainId now),
          blogsTab := some (c.blogsTab.getD []),
          eventsTab := some (c.eventsTab.getD []),
          registrationsTab := some (c.registrationsTab.getD []),
          nextDomainId := c.nextDomainId + defaultDomains.length } := by
      unfold DatabaseManager.ensure_tables_exist
      simp [h0]
    have hlen : ((c.domainsTab.getD []) ++
        seedDomains c.nextDomainId now).length ≠ 0 := by
      simp [seedDomains, defaultDomains]
    refine ⟨?_, ?_, ?_, ?_, ?_, ?_, ?_⟩
    · intro l hl
      rw [hEq]
      simp [hl]
    · intro l hl
      rw [hEq]
      simp [hl]
    · intro l hl
      rw [hEq]
      simp [hl]
    · intro l hl hne
      exfalso
      rw [hl] at h0
      simp at h0
      exact hne h0
    · intro _
      rw [hEq]
    · rw [hEq]
      unfold DatabaseManager.ensure_tables_exist
      simp only [Option.getD_some]
      rw [if_neg (by simpa using hlen)]
    · unfold DatabaseManager.repair_database
      rfl
  · have hEq : DatabaseManager.ensure_tables_exist now c =
        { domainsTab := some (c.domainsTab.getD []),
          blogsTab := some (c.blogsTab.getD []),
          eventsTab := some (c.eventsTab.getD []),
          registrationsTab := some (c.registrationsTab.getD []),
          nextDomainId := c.nextDomainId } := by
      unfold DatabaseManager.ensure_tables_exist
      simp [h0]
    refine ⟨?_, ?_, ?_, ?_, ?_, ?_, ?_⟩
    · intro l hl
      rw [hEq]
      simp [hl]
    · intro l hl
      rw [hEq]
      simp [hl]
    · intro l hl
      rw [hEq]
      simp [hl]
    · intro l hl _
      rw [hEq]
      simp [hl]
    · intro hlen
      exact absurd hlen h0
    · rw [hEq]
      unfold DatabaseManager.ensure_tables_exist
      simp [h0]
    · unfold DatabaseManager.repair_database
      rfl

/-- C9 witness: bootstrapping the empty catalog seeds the defaults and a
second run changes nothing. -/
theorem ensure_tables_idempotent_nondestructive_witness :
    ((emptyCatalog.domainsTab.getD []).length = 0 ∧
      (DatabaseManager.ensure_tables_exist 0 emptyCatalog).domainsTab =
        some ((emptyCatalog.domainsTab.getD []) ++ seedDomains 1 0)) ∧
    DatabaseManager.ensure_tables_exist 1 freshCatalog = freshCatalog :=
  ⟨⟨by decide,
    (ensure_tables_idempotent_nondestructive 0 1 emptyCatalog).2.2.2.2.1
      (by decide)⟩,
   (ensure_tables_idempotent_nondestructive 0 1 emptyCatalog).2.2.2.2.2.1⟩

/-- C10 (confirmed): `get_dashboard_stats` never raises — every outcome
of the four count queries yields a normal return, and when a query fails
the catch-all returns the empty mapping; consequently the `/admin/health`
endpoint, which marks the database healthy unless that call raises,
reports overall status `healthy` and database `healthy` even when every
count query fails. -/
theorem dashboard_stats_swallow_errors
    (qB qE qD qR : DbResult (Option Nat)) (e1 e2 e3 e4 : String) :
    (∃ v, AdminDB.get_dashboard_stats qB qE qD qR = .ok v) ∧
    AdminDB.get_dashboard_stats (.err e1) (.err e2) (.err e3) (.err e4) =
      .ok [] ∧
    Main.health_check (.err e1) (.err e2) (.err e3) (.err e4) =
      ("healthy", "healthy") := by
  refine ⟨?_, rfl, rfl⟩
  unfold AdminDB.get_dashboard_stats
  rcases qB with b | _
  · rcases qE with e | _
    · rcases qD with d | _
      · rcases qR with r | _ <;> exact ⟨_, rfl⟩
      · exact ⟨_, rfl⟩
    · exact ⟨_, rfl⟩
  · exact ⟨_, rfl⟩

end COE
